import Mathlib

/-!
FluxLoop CLI — verification of the data/evaluate command logic

Shallow embedding of the pure decision logic of the FluxLoop CLI
(`fluxloop_cli/commands/data.py`, `fluxloop_cli/commands/evaluate.py`,
`fluxloop_cli/progress.py`).

Modelling conventions:
* Python JSON-ish values are modelled by `PyVal` (numbers as integers;
  floating point is out of scope for the claims treated here).
* Python string methods (`lower`, `strip`, single-character `replace` and
  `split`) are modelled by the `py*` helpers over character lists, so that
  every definition evaluates by kernel reduction; they agree with Python on
  the ASCII data these commands handle.
* Python truthiness of an optional string (`if s:`) is `pyTruthyStr`.
* Console output is modelled as the list of printed lines; raising
  `typer.BadParameter` / `typer.Exit(1)` is modelled by an `Except` error.
-/

namespace Fluxloop

/-- Python/JSON values as manipulated by the CLI (numbers as integers). -/
inductive PyVal where
  | none
  | bool (b : Bool)
  | int (n : Int)
  | str (s : String)
  | list (xs : List PyVal)
  | dict (entries : List (String × PyVal))

/-- `d.get(k)` on a Python dict, modelled as first-match lookup
(Python dict keys are unique, so first-match is exact). -/
def dictGet (entries : List (String × PyVal)) (k : String) : Option PyVal :=
  match entries with
  | [] => Option.none
  | (k', v) :: rest => if k' = k then some v else dictGet rest k

/-- `payload.get(k)` where a missing key yields Python `None`. -/
def pyGet (entries : List (String × PyVal)) (k : String) : PyVal :=
  (dictGet entries k).getD PyVal.none

/-- Is this value Python `None`? -/
def isPyNone : PyVal → Bool
  | PyVal.none => true
  | _ => false

/-- Python truthiness of an optional string: `None` and `""` are falsy. -/
def pyTruthyStr : Option String → Bool
  | Option.none => false
  | some s => s ≠ ""

/-- Python `s.lower()` (ASCII case folding, which is all these commands
compare). -/
def pyLower (s : String) : String :=
  String.mk (s.data.map Char.toLower)

/-- Python `s.strip()`: leading and trailing whitespace removed. -/
def pyStrip (s : String) : String :=
  String.mk (((s.data.dropWhile Char.isWhitespace).reverse.dropWhile
    Char.isWhitespace).reverse)

/-- Python `s.replace(old, new)` for single-character arguments. -/
def pyReplaceChar (old new : Char) (s : String) : String :=
  String.mk (s.data.map (fun c => if c = old then new else c))

/-- Worker for `pySplitChar`: `acc` holds the current field reversed. -/
def pySplitCharAux (sep : Char) : List Char → List Char → List String
  | [], acc => [String.mk acc.reverse]
  | c :: cs, acc =>
    if c = sep then String.mk acc.reverse :: pySplitCharAux sep cs []
    else pySplitCharAux sep cs (c :: acc)

/-- Python `s.split(sep)` for a single-character separator
(`"".split(",") = [""]`, trailing separators yield empty fields). -/
def pySplitChar (sep : Char) (s : String) : List String :=
  pySplitCharAux sep s.data []

/-- Does `sub` occur as a contiguous block at the head or further inside `s`? -/
def charsContain (sub : List Char) : List Char → Bool
  | [] => sub.isPrefixOf []
  | c :: rest => sub.isPrefixOf (c :: rest) || charsContain sub rest

/-- Substring containment, the Python membership test `sub in s`. -/
def strContains (s sub : String) : Bool :=
  charsContain sub.data s.data

/-- `token.rsplit(":", 1)` for a token known to contain `":"`:
returns (prefix before last colon, suffix after last colon). -/
def rsplitColon (token : String) : String × String :=
  let parts := pySplitChar ':' token
  match parts.reverse with
  | [] => (token, "")
  | suffix :: revInit => (String.intercalate ":" revInit.reverse, suffix)

/-- Python `s.isdigit()` restricted to ASCII digits: nonempty and all digits. -/
def pyIsDigit (s : String) : Bool :=
  s ≠ "" && s.data.all Char.isDigit

/-- Python truthiness of a JSON-ish value. -/
def pyTruthy : PyVal → Bool
  | PyVal.none => false
  | PyVal.bool b => b
  | PyVal.int n => n ≠ 0
  | PyVal.str s => s ≠ ""
  | PyVal.list xs => !xs.isEmpty
  | PyVal.dict es => !es.isEmpty

/-- Python `a or b` on values: `a` when truthy, else `b`. -/
def pyOr (a b : PyVal) : PyVal :=
  if pyTruthy a then a else b

/-- Python `repr(v)` for JSON-ish values, rendered structurally (single-quoted
strings, bracketed lists, braced dicts). -/
def pyReprAux : PyVal → String
  | PyVal.none => "None"
  | PyVal.bool b => if b then "True" else "False"
  | PyVal.int n => toString n
  | PyVal.str s => "\x27" ++ s ++ "\x27"
  | PyVal.list xs =>
    "[" ++ String.intercalate ", " (xs.attach.map (fun x => pyReprAux x.1)) ++ "]"
  | PyVal.dict es =>
    "\x7b" ++
      String.intercalate ", "
        (es.attach.map (fun kv => "\x27" ++ kv.1.1 ++ "\x27: " ++ pyReprAux kv.1.2)) ++
    "\x7d"
decreasing_by
  · have := List.sizeOf_lt_of_mem x.2
    simp only [PyVal.list.sizeOf_spec] at *
    omega
  · have h := List.sizeOf_lt_of_mem kv.2
    have h2 : sizeOf kv.1.2 < sizeOf kv.1 := by
      obtain ⟨a, b⟩ := kv.1
      simp
    simp only [PyVal.dict.sizeOf_spec] at *
    omega

/-- Python `str(v)`: exact for scalars; containers are rendered structurally
through their repr. -/
def pyStr : PyVal → String
  | PyVal.str s => s
  | PyVal.none => "None"
  | PyVal.bool b => if b then "True" else "False"
  | PyVal.int n => toString n
  | v => pyReprAux v

/-- CLI-visible failures: `typer.BadParameter`, or `typer.Exit(code)` after
printing the given console lines. -/
inductive CliErr where
  | badParameter (msg : String)
  | exitWith (code : Int) (lines : List String)
deriving DecidableEq, Repr

deriving instance DecidableEq for Except

/-- Did a computation end in a `typer.BadParameter` error? -/
def isBadParameterResult {α : Type} : Except CliErr α → Bool
  | Except.error (CliErr.badParameter _) => true
  | _ => false

end Fluxloop

namespace Fluxloop.Data

/-! ## `commands/data.py`: constants and category inference -/

def DATASET_EXTENSIONS : List String :=
  [".csv", ".json", ".jsonl", ".xlsx", ".xls", ".tsv"]

def DOCUMENT_EXTENSIONS : List String :=
  [".pdf", ".docx", ".doc", ".md", ".txt", ".html", ".htm"]

def USAGE_CONTEXT : String := "context"
def USAGE_GROUND_TRUTH : String := "ground-truth"
def VALID_GT_SPLITS : List String := ["train", "dev", "test"]
def DEFAULT_GT_SAMPLING_SEED : Int := 42

/-- `_infer_data_category(file_path, override)`: the file is represented by
its extension (`file_path.suffix`).  Mirrors the Python early-return
structure: a truthy override equal (lowercased) to a known category wins,
otherwise the extension decides. -/
def inferDataCategory (suffix : String) (override : Option String) : String :=
  let fromOverride : Option String :=
    match override with
    | Option.none => Option.none
    | some ov =>
      if ov ≠ "" then
        let ovl := pyLower ov
        if ovl = "dataset" then some "DATASET"
        else if ovl = "document" ∨ ovl = "knowledge" then some "KNOWLEDGE"
        else Option.none
      else Option.none
  match fromOverride with
  | some c => c
  | Option.none =>
    if pyLower suffix ∈ DATASET_EXTENSIONS then "DATASET" else "KNOWLEDGE"

/-- `_infer_file_type(data_category)`. -/
def inferFileType (dataCategory : String) : String :=
  if dataCategory = "DATASET" then "structured" else "document"

/-- `_normalize_usage(usage)`. -/
def normalizeUsage (usage : String) : Except CliErr String :=
  let usageNorm := pyLower (pyStrip usage)
  if usageNorm = USAGE_CONTEXT ∨ usageNorm = USAGE_GROUND_TRUTH then
    Except.ok usageNorm
  else
    Except.error (CliErr.badParameter "--usage must be one of: context, ground-truth")

/-- `_normalize_split(split)`. -/
def normalizeSplit (split : Option String) : Except CliErr (Option String) :=
  match split with
  | Option.none => Except.ok Option.none
  | some s =>
    let splitNorm := pyLower (pyStrip s)
    if splitNorm ∈ VALID_GT_SPLITS then Except.ok (some splitNorm)
    else Except.error (CliErr.badParameter "--split must be one of: train, dev, test")

/-- `_normalize_role(role)`: strip + lower, the empty result collapses to `None`. -/
def normalizeRole (role : Option String) : Option String :=
  match role with
  | Option.none => Option.none
  | some r =>
    let roleNorm := pyLower (pyStrip r)
    if roleNorm = "" then Option.none else some roleNorm

/-- `_gt_options_used(...)`. -/
def gtOptionsUsed (split labelColumn rowFilter : Option String)
    (samplingSeed : Int) (samplingSeedExplicit : Bool) : Bool :=
  pyTruthyStr split || pyTruthyStr labelColumn || pyTruthyStr rowFilter ||
    samplingSeedExplicit || samplingSeed ≠ DEFAULT_GT_SAMPLING_SEED

/-- `_resolve_push_scenario_id(usage_mode, scenario, bind)`: the call to
`get_current_scenario_id()` is modelled by the `currentScenario` input. -/
def resolvePushScenarioId (usageMode : String) (scenario : Option String)
    (bindFlag : Bool) (currentScenario : Option String) :
    Except CliErr (Option String) :=
  let scenarioId := scenario
  let scenarioId :=
    if bindFlag ∧ ¬ pyTruthyStr scenarioId then currentScenario else scenarioId
  if usageMode = USAGE_GROUND_TRUTH ∧ ¬ pyTruthyStr scenarioId then
    Except.error (CliErr.exitWith 1
      ["[red]✗[/red] Ground Truth upload requires a scenario binding.",
       "[dim]Provide --scenario <id> or set current scenario then use --bind.[/dim]"])
  else
    Except.ok scenarioId

/-- The create-payload fields that depend on the usage mode (`push`, the
`data_category` / `file_type` / `processing_profile` branch). -/
structure CreateMeta where
  data_category : String
  file_type : String
  processing_profile : String
deriving DecidableEq, Repr

/-- Arguments of `data push` relevant to its pre-network phase.  The file is
represented by its extension; `samplingSeedExplicit` models
`_was_option_explicitly_set(ctx, "sampling_seed")`. -/
structure PushArgs where
  usage : String
  split : Option String
  labelColumn : Option String
  rowFilter : Option String
  samplingSeed : Int
  samplingSeedExplicit : Bool
  bindFlag : Bool
  scenario : Option String
  currentScenario : Option String
  asType : Option String
  suffix : String
deriving DecidableEq, Repr

/-- The pre-network phase of `push` (source order preserved): usage/split
normalization, ground-truth option compatibility, scenario resolution, and
the category/file-type/processing-profile fields of the create payload.
Everything here runs before `create_authenticated_client`, so an error means
no network call was made.  The file-existence and current-project lookups
interleaved in the source are I/O preconditions with no bearing on these
fields and are not modelled. -/
def pushPrepare (a : PushArgs) : Except CliErr (Option String × CreateMeta) :=
  match normalizeUsage a.usage with
  | Except.error e => Except.error e
  | Except.ok usageMode =>
    match normalizeSplit a.split with
    | Except.error e => Except.error e
    | Except.ok splitValue =>
      let gtOptionsRequested :=
        gtOptionsUsed splitValue a.labelColumn a.rowFilter a.samplingSeed a.samplingSeedExplicit
      if usageMode = USAGE_CONTEXT ∧ gtOptionsRequested then
        Except.error (CliErr.badParameter
          "--split/--label-column/--row-filter/--sampling-seed are only valid with --usage ground-truth")
      else if usageMode = USAGE_GROUND_TRUTH ∧ ¬ (a.bindFlag ∨ pyTruthyStr a.scenario) then
        Except.error (CliErr.badParameter "--usage ground-truth requires --bind or --scenario")
      else
        match resolvePushScenarioId usageMode a.scenario a.bindFlag a.currentScenario with
        | Except.error e => Except.error e
        | Except.ok scenarioId =>
          let meta : CreateMeta :=
            if usageMode = USAGE_GROUND_TRUTH then
              ⟨"DATASET", "structured", "dataset"⟩
            else
              let c := inferDataCategory a.suffix a.asType
              ⟨c, inferFileType c, "auto"⟩
          Except.ok (scenarioId, meta)

/-- Observable outcome of `pushPrepare`: `Option.none` when it succeeds,
otherwise the error.  Used to state that a flag cannot cause a failure. -/
def pushPrepareErr (a : PushArgs) : Option CliErr :=
  match pushPrepare a with
  | Except.ok _ => Option.none
  | Except.error e => some e

/-- The pre-network validation of `data bind` (source order preserved): role
and split normalization, then the ground-truth option compatibility check.
Returns the normalized role and split. -/
def bindPrepare (role split labelColumn rowFilter : Option String)
    (samplingSeed : Int) (samplingSeedExplicit : Bool) :
    Except CliErr (Option String × Option String) :=
  let roleValue := normalizeRole role
  match normalizeSplit split with
  | Except.error e => Except.error e
  | Except.ok splitValue =>
    let gtOptionsRequested :=
      gtOptionsUsed splitValue labelColumn rowFilter samplingSeed samplingSeedExplicit
    if gtOptionsRequested ∧ roleValue ≠ some "validation" then
      Except.error (CliErr.badParameter
        "--split/--label-column/--row-filter/--sampling-seed require --role validation")
    else
      Except.ok (roleValue, splitValue)

/-- `httpx.Response.is_success`: 2xx status codes. -/
def isSuccessStatus (code : Int) : Bool :=
  decide (200 ≤ code ∧ code < 300)

/-- `_print_materialize_error(resp, scenario_id, data_id)` as the list of
printed console lines.  `detail` is the string `_extract_error_detail`
produced from the response body. -/
def printMaterializeError (statusCode : Int) (detail : String)
    (scenarioId dataId : String) : List String :=
  let detailLower := pyLower detail
  let base :=
    ["[red]✗[/red] Ground Truth materialization failed (" ++ toString statusCode ++ ")",
     "  API detail: " ++ detail,
     "  Next actions:"]
  if statusCode = 409 ∧
      (["processing", "not ready", "pending", "queued"].any
        (fun token => strContains detailLower token)) then
    base ++
      ["  1) Wait for dataset processing: fluxloop data show " ++ dataId,
       "  2) Retry materialization once processing is completed " ++
         "(fluxloop data bind " ++ dataId ++ " --scenario " ++ scenarioId ++
         " --role validation)"]
  else if statusCode = 409 ∧
      (["role", "validation"].any (fun token => strContains detailLower token)) then
    base ++
      ["  1) Ensure validation role binding: " ++
         "fluxloop data bind " ++ dataId ++ " --scenario " ++ scenarioId ++
         " --role validation",
       "  2) Verify current GT state: " ++
         "fluxloop data gt status --scenario " ++ scenarioId ++ " --data-id " ++ dataId]
  else
    base ++
      ["  1) Inspect processing state: fluxloop data show " ++ dataId,
       "  2) Check GT status and retry as needed: " ++
         "fluxloop data gt status --scenario " ++ scenarioId ++ " --data-id " ++ dataId]

/-- The response to the materialize POST: its status code, the error detail
`_extract_error_detail` extracts from it, and its parsed JSON body. -/
structure MatResponse where
  statusCode : Int
  detail : String
  body : PyVal

/-- `_materialize_ground_truth` after the POST: a non-success response prints
the remediation lines and raises `typer.Exit(1)`; a success returns the parsed
dict (or `{}` when the body is not a dict). -/
def materializeGroundTruth (resp : MatResponse) (scenarioId dataId : String) :
    Except CliErr (List (String × PyVal)) :=
  if ¬ isSuccessStatus resp.statusCode then
    Except.error (CliErr.exitWith 1
      (printMaterializeError resp.statusCode resp.detail scenarioId dataId))
  else
    match resp.body with
    | PyVal.dict entries => Except.ok entries
    | _ => Except.ok []

/-- One entry of the `gt_contracts` loop in `_extract_gt_contract_ids`:
a nonempty string is kept; a dict contributes `d.get("id") or
d.get("contract_id")` when that is a nonempty string. -/
def contractEntryId : PyVal → Option String
  | PyVal.str s => if s ≠ "" then some s else Option.none
  | PyVal.dict d =>
    match pyOr (pyGet d "id") (pyGet d "contract_id") with
    | PyVal.str s => if s ≠ "" then some s else Option.none
    | _ => Option.none
  | _ => Option.none

/-- One entry of the `gt_contract_ids` loop: kept when a nonempty string. -/
def strEntryId : PyVal → Option String
  | PyVal.str s => if s ≠ "" then some s else Option.none
  | _ => Option.none

/-- The seen-set deduplication loop closing `_extract_gt_contract_ids`
(the Python `set` is modelled by a list used only for membership). -/
def dedupLoop (seen : List String) : List String → List String
  | [] => []
  | x :: xs =>
    if x ∈ seen then dedupLoop seen xs else x :: dedupLoop (x :: seen) xs

/-- The collection phase of `_extract_gt_contract_ids`: `gt_contracts`
entries first, then `gt_contract_ids` entries. -/
def gatherGtContractIds (payload : List (String × PyVal)) : List String :=
  (match pyGet payload "gt_contracts" with
   | PyVal.list contracts => contracts.filterMap contractEntryId
   | _ => []) ++
  (match pyGet payload "gt_contract_ids" with
   | PyVal.list contractIds => contractIds.filterMap strEntryId
   | _ => [])

/-- `_extract_gt_contract_ids(payload)`. -/
def extractGtContractIds (payload : List (String × PyVal)) : List String :=
  dedupLoop [] (gatherGtContractIds payload)

/-- `_build_gt_status_rows`: payload-shape classification into raw items. -/
def gtStatusRawItems (payload : PyVal) : List PyVal :=
  match payload with
  | PyVal.list xs => xs
  | PyVal.dict entries =>
    match pyGet entries "items" with
    | PyVal.list xs => xs
    | _ =>
      match pyGet entries "statuses" with
      | PyVal.list xs => xs
      | _ => [PyVal.dict entries]
  | _ => []

/-- `fallback_data_id or "N/A"`. -/
def fallbackOr (fallback : Option String) : String :=
  match fallback with
  | some s => if s ≠ "" then s else "N/A"
  | Option.none => "N/A"

/-- The `data_id` cell of a status row: the item `data_id` when a nonempty
string, else the fallback, else `"N/A"`. -/
def gtRowDataId (item : List (String × PyVal)) (fallback : Option String) : String :=
  match pyGet item "data_id" with
  | PyVal.str s => if s ≠ "" then s else fallbackOr fallback
  | _ => fallbackOr fallback

/-- The profile-id resolution of a status row: flat
`ground_truth_profile_id` when a string; when falsy, try nested `profile.id`. -/
def gtRowProfileId (item : List (String × PyVal)) : Option String :=
  let flat : Option String :=
    match pyGet item "ground_truth_profile_id" with
    | PyVal.str s => some s
    | _ => Option.none
  if pyTruthyStr flat then flat
  else
    match pyGet item "profile" with
    | PyVal.dict p =>
      match pyGet p "id" with
      | PyVal.str s => if s ≠ "" then some s else flat
      | _ => flat
    | _ => flat

/-- `profile_id or "-"`. -/
def orDash (profileId : Option String) : String :=
  match profileId with
  | some s => if s ≠ "" then s else "-"
  | Option.none => "-"

/-- One entry of the row-level `gt_contracts` loop: a nonempty string, or a dict
nonempty string `id` (unlike `_extract_gt_contract_ids`, no `contract_id`). -/
def gtRowContractEntryId : PyVal → Option String
  | PyVal.str s => if s ≠ "" then some s else Option.none
  | PyVal.dict d =>
    match pyGet d "id" with
    | PyVal.str s => if s ≠ "" then some s else Option.none
    | _ => Option.none
  | _ => Option.none

/-- The contract-id list of a status row: the valid entries of
`gt_contract_ids` when it is a list, else those of `gt_contracts`
(no deduplication in either branch). -/
def gtRowContractIds (item : List (String × PyVal)) : List String :=
  match pyGet item "gt_contract_ids" with
  | PyVal.list ids => ids.filterMap strEntryId
  | _ =>
    match pyGet item "gt_contracts" with
    | PyVal.list contracts => contracts.filterMap gtRowContractEntryId
    | _ => []

/-- `item.get(key, default)`. -/
def pyGetD (item : List (String × PyVal)) (key : String) (default : PyVal) : PyVal :=
  (dictGet item key).getD default

/-- One row of `_build_gt_status_rows` for a dict item. -/
def gtStatusRow (item : List (String × PyVal)) (fallback : Option String) :
    List (String × PyVal) :=
  let contractIds := gtRowContractIds item
  [("data_id", PyVal.str (gtRowDataId item fallback)),
   ("materialization_status", pyGetD item "materialization_status" (PyVal.str "unknown")),
   ("ground_truth_profile_id", PyVal.str (orDash (gtRowProfileId item))),
   ("gt_contract_count", PyVal.int contractIds.length),
   ("processing_status", pyGetD item "processing_status" (PyVal.str "unknown")),
   ("updated_at", pyGetD item "updated_at" (PyVal.str "-")),
   ("gt_contract_ids", PyVal.list (contractIds.map PyVal.str))]

/-- `_build_gt_status_rows(payload, fallback_data_id)`: non-dict items are
skipped (`continue`). -/
def buildGtStatusRows (payload : PyVal) (fallback : Option String) :
    List (List (String × PyVal)) :=
  (gtStatusRawItems payload).filterMap (fun item =>
    match item with
    | PyVal.dict entries => some (gtStatusRow entries fallback)
    | _ => Option.none)

/-- Does a value have one of the two payload shapes the row builder walks? -/
def isListOrDict : PyVal → Bool
  | PyVal.list _ => true
  | PyVal.dict _ => true
  | _ => false

end Fluxloop.Data

namespace Fluxloop.Evaluate

/-! ## `commands/evaluate.py`: decision emptiness, gate reasons,
the `--wait` poll loop -/

/-- `_decision_is_empty(payload)`. -/
def decisionIsEmpty (payload : PyVal) : Bool :=
  match payload with
  | PyVal.dict entries =>
    !((["release_decision", "decision_snapshot", "gate_snapshot",
        "gate_results_snapshot"]).any
        (fun key => !(isPyNone (pyGet entries key))))
  | _ => true

/-- What `_show_decision` does once the decision GET succeeded and its body
parsed; the rendered/JSON output is recorded structurally. -/
inductive ShowDecisionOutcome where
  | printedJson (payload : PyVal)
  | renderedText (payload : PyVal)

/-- The tail of `_show_decision`: empty payloads print the not-available
message and raise `typer.Exit(1)`; otherwise the decision is emitted as raw
JSON or rendered text. -/
def showDecisionOnPayload (payload : PyVal) (jsonOutput : Bool) :
    Except CliErr ShowDecisionOutcome :=
  if decisionIsEmpty payload then
    Except.error (CliErr.exitWith 1
      ["[red]✗[/red] Decision is not available yet for this experiment.",
       "[dim]Run with --wait and try again after evaluation completes.[/dim]"])
  else if jsonOutput then
    Except.ok (ShowDecisionOutcome.printedJson payload)
  else
    Except.ok (ShowDecisionOutcome.renderedText payload)

/-- The `clean` computation of `_normalize_gate_reason`: a trailing
`:<integer>` suffix (after the last colon, ignoring surrounding whitespace)
is stripped and the remainder stripped; otherwise the token is unchanged. -/
def cleanToken (token : String) : String :=
  if strContains token ":" then
    let (pre, suf) := rsplitColon token
    if pyIsDigit (pyStrip suf) then pyStrip pre else token
  else token

/-- The token extraction of `_normalize_gate_reason`: a `reasons` list is
stringified/stripped entrywise; otherwise a non-`None` `reason` is
stringified, `";"` replaced by `","`, split on `","` and stripped.  `None`
(or a missing `reason`) yields no tokens at all. -/
def gateReasonTokens (gateResult : List (String × PyVal)) : Option (List String) :=
  match pyGet gateResult "reasons" with
  | PyVal.list rawReasons =>
    some ((rawReasons.map (fun item => pyStrip (pyStr item))).filter (fun t => t ≠ ""))
  | _ =>
    match pyGet gateResult "reason" with
    | PyVal.none => Option.none
    | rawReason =>
      some ((((pySplitChar ',' (pyReplaceChar ';' ',' (pyStr rawReason)))).map pyStrip).filter
        (fun t => t ≠ ""))

/-- The dedup-and-clean loop of `_normalize_gate_reason` (the Python `set` is
modelled by a list used only for membership). -/
def normalizeGateReasonLoop (seen : List String) : List String → List String
  | [] => []
  | token :: rest =>
    let clean := cleanToken token
    if clean ≠ "" ∧ clean ∉ seen then
      clean :: normalizeGateReasonLoop (clean :: seen) rest
    else
      normalizeGateReasonLoop seen rest

/-- `_normalize_gate_reason(gate_result)`. -/
def normalizeGateReason (gateResult : List (String × PyVal)) : Option String :=
  match gateReasonTokens gateResult with
  | Option.none => Option.none
  | some tokens =>
    match normalizeGateReasonLoop [] tokens with
    | [] => Option.none
    | normalized => some (String.intercalate ", " normalized)

/-- The job fields the `--wait` poll loop reads: `job.get("status")` and the
`progress` counters (numbers modelled as integers, null/missing as `none`). -/
structure JobView where
  status : Option String
  total : Option Int
  completed : Option Int
  failed : Option Int
deriving DecidableEq, Repr

/-- `status = job.get("status") or "queued"`. -/
def jobStatusStr (j : JobView) : String :=
  match j.status with
  | some s => if s ≠ "" then s else "queued"
  | Option.none => "queued"

/-- The `status_line` built on each poll: the status, plus
`(completed/total[, failed n])` when `total` is present. -/
def statusLine (j : JobView) : String :=
  let status := jobStatusStr j
  match j.total with
  | Option.none => status
  | some total =>
    let line := status ++ " (" ++ toString (j.completed.getD 0) ++ "/" ++ toString total
    let line :=
      match j.failed with
      | some failed => if failed ≠ 0 then line ++ ", failed " ++ toString failed else line
      | Option.none => line
    line ++ ")"

def terminalStatuses : List String := ["completed", "partial", "failed", "cancelled"]

end Fluxloop.Evaluate

namespace Fluxloop.Progress

/-! ## `progress.py`: `SpinnerStatus` in non-interactive mode
(the interactive branch repaints a live spinner on a timer and has no
change-detection; the printed-line deduplication under verification is
the non-interactive `update`). -/

/-- The `_last_printed` state of `SpinnerStatus` (initially `None`). -/
structure SpinnerState where
  lastPrinted : Option String
deriving DecidableEq, Repr

/-- `SpinnerStatus.update(text)` in non-interactive mode: prints
`"  " ++ text` only when `text` differs from `_last_printed`. -/
def spinnerUpdate (st : SpinnerState) (text : String) : List String × SpinnerState :=
  if some text ≠ st.lastPrinted then (["  " ++ text], ⟨some text⟩)
  else ([], st)

end Fluxloop.Progress

namespace Fluxloop.Evaluate

open Fluxloop.Progress

/-- What one iteration of the `--wait` loop observes: the job matching the
evaluation id (if visible), and whether the backlog condition held
(`created_at` parsed, no `locked_at`, queued for more than 30 seconds).
Wall-clock timing and ISO-8601 parsing are observations, not re-modelled. -/
structure PollObs where
  job : Option JobView
  backlogSignal : Bool
deriving DecidableEq, Repr

/-- The loop-carried state: the spinner text and the `warned` flag. -/
structure LoopState where
  spinner : SpinnerState
  warned : Bool
deriving DecidableEq, Repr

/-- Result of one loop iteration: the lines printed, the next state, and
whether the loop breaks (terminal job status). -/
structure PollStepResult where
  printed : List String
  next : LoopState
  terminal : Bool
deriving DecidableEq, Repr

/-- One iteration of the `--wait` poll loop (evaluate `main`): a missing job
updates the spinner with the retry notice; otherwise the status line is
handed to the spinner, terminal statuses break, and the one-time backlog
warning may update the spinner once more.  The `time.sleep` and the timeout
check carry no state relevant to rendering. -/
def pollStep (st : LoopState) (obs : PollObs) : PollStepResult :=
  match obs.job with
  | Option.none =>
    let (out, sp) := spinnerUpdate st.spinner "Evaluation job not visible yet. Retrying..."
    ⟨out, ⟨sp, st.warned⟩, false⟩
  | some j =>
    let line := statusLine j
    let (out, sp) := spinnerUpdate st.spinner line
    if jobStatusStr j ∈ terminalStatuses then
      ⟨out, ⟨sp, st.warned⟩, true⟩
    else if jobStatusStr j = "queued" ∧ st.warned = false ∧ obs.backlogSignal = true then
      let (out2, sp2) :=
        spinnerUpdate sp "queued — Worker may not be running or backlog is high"
      ⟨out ++ out2, ⟨sp2, true⟩, false⟩
    else
      ⟨out, ⟨sp, st.warned⟩, false⟩

/-- The initial loop state: fresh spinner, no warning emitted. -/
def initialLoopState : LoopState := ⟨⟨Option.none⟩, false⟩

end Fluxloop.Evaluate

namespace Fluxloop.Claims

/-! ## Claim-side definitions

Definitions in this section follow the words of the specification (not the
source); the refinement theorems below compare them with the source-side
definitions above. -/

open Fluxloop.Data Fluxloop.Evaluate

/-- Spec-side deduplication: duplicates removed, first occurrence kept in
place ("deduplicated while preserving first-occurrence order"). -/
def dedupFirst : List String → List String
  | [] => []
  | x :: xs => x :: dedupFirst (xs.filter (fun y => y ≠ x))
termination_by l => l.length
decreasing_by
  simp_wf
  exact Nat.lt_succ_of_le (List.length_filter_le _ _)

/-- Spec-side rendering of a gate reason per the amended claim: tokens are
extracted as the code does, every token has a trailing `:<integer>` suffix
stripped, and the distinct non-empty results are joined with `", "`. -/
def gateReasonSpecRender (gateResult : List (String × PyVal)) : Option String :=
  match gateReasonTokens gateResult with
  | Option.none => Option.none
  | some tokens =>
    match dedupFirst ((tokens.map cleanToken).filter (fun t => t ≠ "")) with
    | [] => Option.none
    | distinct => some (String.intercalate ", " distinct)

/-- Claim C8 as stated, list branch: the rendered reason joins the distinct
non-empty tokens of the `reasons` list, with no suffix stripping. -/
def gateReasonListClaimRender (gateResult : List (String × PyVal)) : Option String :=
  match pyGet gateResult "reasons" with
  | PyVal.list rawReasons =>
    match dedupFirst
        ((rawReasons.map (fun item => pyStrip (pyStr item))).filter (fun t => t ≠ "")) with
    | [] => Option.none
    | distinct => some (String.intercalate ", " distinct)
  | _ => Option.none

/-- The hypothesis of claim C6: all four decision fields are null (or missing), or
the payload is not a dict at all. -/
def DecisionAbsent (payload : PyVal) : Prop :=
  match payload with
  | PyVal.dict entries =>
    ∀ key ∈ ["release_decision", "decision_snapshot", "gate_snapshot",
             "gate_results_snapshot"], isPyNone (pyGet entries key) = true
  | _ => True

/-- The row shape of claim C9: the seven fixed columns in order; `data_id` and
`ground_truth_profile_id` are nonempty strings; `gt_contract_count` is the
length of the row-local `gt_contract_ids` list, whose entries are all
nonempty strings. -/
def WellShapedRow (row : List (String × PyVal)) : Prop :=
  row.map Prod.fst =
    ["data_id", "materialization_status", "ground_truth_profile_id",
     "gt_contract_count", "processing_status", "updated_at", "gt_contract_ids"] ∧
  (∃ s : String, dictGet row "data_id" = some (PyVal.str s) ∧ s ≠ "") ∧
  (∃ s : String, dictGet row "ground_truth_profile_id" = some (PyVal.str s) ∧ s ≠ "") ∧
  (∃ ids : List String,
    dictGet row "gt_contract_ids" = some (PyVal.list (ids.map PyVal.str)) ∧
    dictGet row "gt_contract_count" = some (PyVal.int ids.length) ∧
    ∀ s ∈ ids, s ≠ "")

end Fluxloop.Claims

namespace Fluxloop

/-! ## Helper lemmas -/

theorem charsContain_nil (l : List Char) : charsContain [] l = true := by
  cases l <;> simp [charsContain, List.isPrefixOf]

theorem charsContain_append_left (sub l m : List Char)
    (h : charsContain sub l = true) : charsContain sub (l ++ m) = true := by
  induction l with
  | nil =>
    have hsub : sub = [] := by
      simpa [charsContain, List.isPrefixOf_iff_prefix] using h
    subst hsub
    exact charsContain_nil _
  | cons c rest ih =>
    simp only [charsContain, Bool.or_eq_true, List.isPrefixOf_iff_prefix] at h ⊢
    rcases h with h | h
    · exact Or.inl (h.trans (List.prefix_append (c :: rest) m))
    · exact Or.inr (ih h)

theorem strContains_append_left (a b sub : String)
    (h : strContains a sub = true) : strContains (a ++ b) sub = true := by
  have hd : (a ++ b).data = a.data ++ b.data := String.data_append a b
  unfold strContains at h ⊢
  rw [hd]
  exact charsContain_append_left _ _ _ h

end Fluxloop

namespace Fluxloop.Claims

open Fluxloop.Data Fluxloop.Evaluate Fluxloop.Progress

theorem dedupFirst_nil : dedupFirst [] = [] := by
  rw [dedupFirst]

theorem dedupFirst_cons (x : String) (xs : List String) :
    dedupFirst (x :: xs) = x :: dedupFirst (xs.filter (fun y => y ≠ x)) := by
  rw [dedupFirst]

theorem dedupFirst_sublist (l : List String) : List.Sublist (dedupFirst l) l := by
  induction l using dedupFirst.induct with
  | case1 => simp [dedupFirst_nil]
  | case2 x xs ih =>
    rw [dedupFirst_cons]
    exact List.Sublist.cons₂ x (ih.trans (List.filter_sublist xs))

theorem not_mem_dedupFirst_filter_ne (x : String) (xs : List String) :
    x ∉ dedupFirst (xs.filter (fun y => y ≠ x)) := by
  intro hmem
  have hmem' : x ∈ xs.filter (fun y => y ≠ x) :=
    (dedupFirst_sublist _).mem hmem
  have := List.of_mem_filter hmem'
  simp at this

theorem dedupFirst_nodup (l : List String) : (dedupFirst l).Nodup := by
  induction l using dedupFirst.induct with
  | case1 => simp [dedupFirst_nil]
  | case2 x xs ih =>
    rw [dedupFirst_cons]
    exact List.Nodup.cons (not_mem_dedupFirst_filter_ne x xs) ih

theorem dedupFirst_eq_self_of_nodup (l : List String) (h : l.Nodup) :
    dedupFirst l = l := by
  induction l using dedupFirst.induct with
  | case1 => exact dedupFirst_nil
  | case2 x xs ih =>
    rw [dedupFirst_cons]
    have hx : x ∉ xs := (List.nodup_cons.mp h).1
    have hfilter : xs.filter (fun y => y ≠ x) = xs := by
      apply List.filter_eq_self.mpr
      intro a ha
      simp only [ne_eq, decide_eq_true_eq]
      exact fun hax => hx (hax ▸ ha)
    rw [hfilter] at ih ⊢
    rw [ih ((List.nodup_cons.mp h).2)]

theorem dedupFirst_length_le (l : List String) :
    (dedupFirst l).length ≤ l.length :=
  (dedupFirst_sublist l).length_le

theorem dedupFirst_length_eq_iff (l : List String) :
    (dedupFirst l).length = l.length ↔ l.Nodup := by
  constructor
  · intro hlen
    have : dedupFirst l = l := (dedupFirst_sublist l).eq_of_length hlen
    rw [← this]
    exact dedupFirst_nodup l
  · intro hnodup
    rw [dedupFirst_eq_self_of_nodup l hnodup]

theorem dedupLoop_eq_dedupFirst (l : List String) : ∀ seen : List String,
    dedupLoop seen l = dedupFirst (l.filter (fun x => decide (x ∉ seen))) := by
  induction l with
  | nil => intro seen; rw [dedupLoop]; rw [List.filter_nil, dedupFirst_nil]
  | cons x xs ih =>
    intro seen
    by_cases hx : x ∈ seen
    · have hfc : List.filter (fun y => decide (y ∉ seen)) (x :: xs) =
          List.filter (fun y => decide (y ∉ seen)) xs := by
        rw [List.filter_cons]
        simp [hx]
      rw [dedupLoop, if_pos hx, hfc]
      exact ih seen
    · have hfc : List.filter (fun y => decide (y ∉ seen)) (x :: xs) =
          x :: List.filter (fun y => decide (y ∉ seen)) xs := by
        rw [List.filter_cons]
        simp [hx]
      rw [dedupLoop, if_neg hx, hfc, dedupFirst_cons]
      congr 1
      rw [ih (x :: seen), List.filter_filter]
      apply congrArg
      apply List.filter_congr
      intro a _
      simp only [List.mem_cons, not_or, decide_not, ne_eq, Bool.decide_and]

/-- C7: for every materialize-result dict, `_extract_gt_contract_ids` returns
the identifiers collected from `gt_contracts` (strings directly; dicts through
`id` or `contract_id`) followed by the string entries of `gt_contract_ids`,
with duplicates removed while preserving first-occurrence order — uniformly
over the string-array and object-array representations. -/
theorem extract_gt_contract_ids_dedups_preserving_order
    (payload : List (String × PyVal)) :
    extractGtContractIds payload = dedupFirst (gatherGtContractIds payload) := by
  unfold extractGtContractIds
  rw [dedupLoop_eq_dedupFirst]
  apply congrArg
  apply List.filter_eq_self.mpr
  intro a _
  simp

/-- C1: every `push` invocation that passes validation in ground-truth usage
mode sends a create payload with `data_category = "DATASET"`,
`file_type = "structured"`, `processing_profile = "dataset"`, for every `--as`
override and every file extension. -/
theorem push_ground_truth_forces_dataset_payload (a : PushArgs)
    (scenarioId : Option String) (meta : CreateMeta)
    (hok : pushPrepare a = Except.ok (scenarioId, meta))
    (hgt : pyLower (pyStrip a.usage) = USAGE_GROUND_TRUTH) :
    meta = ⟨"DATASET", "structured", "dataset"⟩ := by
  have hnu : normalizeUsage a.usage = Except.ok USAGE_GROUND_TRUTH := by
    unfold normalizeUsage
    rw [hgt]
    simp
  unfold pushPrepare at hok
  rw [hnu] at hok
  dsimp only at hok
  cases hsplit : normalizeSplit a.split with
  | error e => rw [hsplit] at hok; exact absurd hok (by simp)
  | ok splitValue =>
    rw [hsplit] at hok
    dsimp only at hok
    rw [if_neg (by simp [USAGE_GROUND_TRUTH, USAGE_CONTEXT])] at hok
    by_cases hb : USAGE_GROUND_TRUTH = USAGE_GROUND_TRUTH ∧
        ¬ (a.bindFlag ∨ pyTruthyStr a.scenario)
    · rw [if_pos hb] at hok
      exact absurd hok (by simp)
    · rw [if_neg hb] at hok
      cases hres : resolvePushScenarioId USAGE_GROUND_TRUTH a.scenario a.bindFlag
          a.currentScenario with
      | error e => rw [hres] at hok; exact absurd hok (by simp)
      | ok sid =>
        rw [hres] at hok
        dsimp only at hok
        rw [if_pos rfl] at hok
        have := (Except.ok.injEq _ _).mp hok
        exact (Prod.mk.injEq _ _ _ _).mp this |>.2.symm

/-- Witness for C1 at a concrete ground-truth push invocation. -/
theorem push_ground_truth_forces_dataset_payload_witness :
    pushPrepare ⟨"ground-truth", Option.none, Option.none, Option.none, 42,
        false, true, Option.none, some "sc1", some "document", ".md"⟩ =
      Except.ok (some "sc1",
        ⟨"DATASET", "structured", "dataset"⟩) ∧
    (⟨"DATASET", "structured", "dataset"⟩ : CreateMeta) =
      ⟨"DATASET", "structured", "dataset"⟩ :=
  ⟨by decide,
   push_ground_truth_forces_dataset_payload
     ⟨"ground-truth", Option.none, Option.none, Option.none, 42, false, true,
      Option.none, some "sc1", some "document", ".md"⟩
     (some "sc1") ⟨"DATASET", "structured", "dataset"⟩ (by decide) (by decide)⟩

/-- C10: in non-ground-truth mode, an unknown `--as` override is silently
ignored (extension-based inference applies, and the validation outcome of
`push` never depends on `--as`), and the undocumented value `"knowledge"` is
accepted as an alias of `"document"`, yielding category `KNOWLEDGE`. -/
theorem push_as_override_unknown_ignored_knowledge_alias :
    (∀ (ext ov : String), pyLower ov ∉ ["dataset", "document", "knowledge"] →
       inferDataCategory ext (some ov) = inferDataCategory ext Option.none) ∧
    (∀ ext : String, inferDataCategory ext (some "knowledge") = "KNOWLEDGE") ∧
    (∀ (a : PushArgs) (ov : Option String),
       pushPrepareErr { a with asType := ov } = pushPrepareErr a) := by
  refine ⟨?_, ?_, ?_⟩
  · intro ext ov hov
    simp only [List.mem_cons, not_or] at hov
    unfold inferDataCategory
    by_cases hempty : ov = ""
    · simp [hempty]
    · simp [hempty, hov.1, hov.2.1, hov.2.2.1]
  · intro ext
    simp [inferDataCategory, pyLower]
  · intro a ov
    unfold pushPrepareErr pushPrepare
    dsimp only
    cases normalizeUsage a.usage with
    | error e => rfl
    | ok usageMode =>
      dsimp only
      cases normalizeSplit a.split with
      | error e => rfl
      | ok splitValue =>
        dsimp only
        by_cases h1 : usageMode = USAGE_CONTEXT ∧
            gtOptionsUsed splitValue a.labelColumn a.rowFilter a.samplingSeed
              a.samplingSeedExplicit
        · rw [if_pos h1, if_pos h1]
        · rw [if_neg h1, if_neg h1]
          by_cases h2 : usageMode = USAGE_GROUND_TRUTH ∧
              ¬ (a.bindFlag ∨ pyTruthyStr a.scenario)
          · rw [if_pos h2, if_pos h2]
          · rw [if_neg h2, if_neg h2]
            cases resolvePushScenarioId usageMode a.scenario a.bindFlag
                a.currentScenario with
            | error e => rfl
            | ok sid => rfl

/-- Witness for C10 at a concrete unknown override. -/
theorem push_as_override_unknown_ignored_witness :
    inferDataCategory ".csv" (some "table") = inferDataCategory ".csv" Option.none :=
  push_as_override_unknown_ignored_knowledge_alias.1 ".csv" "table" (by decide)

/-- C5: a materialize response with HTTP status 409 whose extracted error
detail contains (case-insensitively) "processing", "not ready", "pending" or
"queued" makes `_materialize_ground_truth` exit with code 1, with output
containing both "Ground Truth materialization failed (409)" and
"Wait for dataset processing". -/
theorem materialize_409_processing_message (resp : MatResponse)
    (scenarioId dataId : String)
    (h409 : resp.statusCode = 409)
    (htok : (["processing", "not ready", "pending", "queued"].any
      (fun token => strContains (pyLower resp.detail) token)) = true) :
    materializeGroundTruth resp scenarioId dataId =
      Except.error (CliErr.exitWith 1
        (printMaterializeError 409 resp.detail scenarioId dataId)) ∧
    ((printMaterializeError 409 resp.detail scenarioId dataId).any
      (fun line => strContains line "Ground Truth materialization failed (409)")) = true ∧
    ((printMaterializeError 409 resp.detail scenarioId dataId).any
      (fun line => strContains line "Wait for dataset processing")) = true := by
  have hfail : isSuccessStatus resp.statusCode = false := by
    rw [h409]
    decide
  have hprint : printMaterializeError 409 resp.detail scenarioId dataId =
      ["[red]✗[/red] Ground Truth materialization failed (" ++ toString (409 : Int) ++ ")",
       "  API detail: " ++ resp.detail,
       "  Next actions:"] ++
      ["  1) Wait for dataset processing: fluxloop data show " ++ dataId,
       "  2) Retry materialization once processing is completed " ++
         "(fluxloop data bind " ++ dataId ++ " --scenario " ++ scenarioId ++
         " --role validation)"] := by
    unfold printMaterializeError
    rw [if_pos ⟨rfl, htok⟩]
  refine ⟨?_, ?_, ?_⟩
  · unfold materializeGroundTruth
    rw [hfail, h409]
    simp
  · rw [hprint]
    simp only [List.any_eq_true]
    refine ⟨"[red]✗[/red] Ground Truth materialization failed (" ++
      toString (409 : Int) ++ ")", by simp, ?_⟩
    decide
  · rw [hprint]
    simp only [List.any_eq_true]
    refine ⟨"  1) Wait for dataset processing: fluxloop data show " ++ dataId,
      by simp, ?_⟩
    apply strContains_append_left
    decide

/-- Witness for C5 at the concrete scenario from the spec: a 409 with detail
"Dataset processing is pending.". -/
theorem materialize_409_processing_message_witness :
    materializeGroundTruth ⟨409, "Dataset processing is pending.", PyVal.none⟩
        "sc_1" "data_1" =
      Except.error (CliErr.exitWith 1
        (printMaterializeError 409 "Dataset processing is pending." "sc_1" "data_1")) ∧
    ((printMaterializeError 409 "Dataset processing is pending." "sc_1" "data_1").any
      (fun line => strContains line "Ground Truth materialization failed (409)")) = true ∧
    ((printMaterializeError 409 "Dataset processing is pending." "sc_1" "data_1").any
      (fun line => strContains line "Wait for dataset processing")) = true :=
  materialize_409_processing_message ⟨409, "Dataset processing is pending.", PyVal.none⟩
    "sc_1" "data_1" (by decide) (by decide)

/-- C6: when all four of `release_decision`, `decision_snapshot`,
`gate_snapshot`, `gate_results_snapshot` are null (or the payload is not a
dict), `--show-decision` prints "Decision is not available yet for this
experiment." and exits with code 1 instead of rendering a decision. -/
theorem show_decision_empty_payload_exits (payload : PyVal) (jsonOutput : Bool)
    (habsent : DecisionAbsent payload) :
    showDecisionOnPayload payload jsonOutput =
      Except.error (CliErr.exitWith 1
        ["[red]✗[/red] Decision is not available yet for this experiment.",
         "[dim]Run with --wait and try again after evaluation completes.[/dim]"]) := by
  have hempty : decisionIsEmpty payload = true := by
    cases payload with
    | dict entries =>
      unfold DecisionAbsent at habsent
      unfold decisionIsEmpty
      simp only [Bool.not_eq_true', List.any_eq_false, Bool.not_eq_false]
      intro key hkey
      exact habsent key hkey
    | none => rfl
    | bool b => rfl
    | int n => rfl
    | str s => rfl
    | list xs => rfl
  unfold showDecisionOnPayload
  rw [if_pos hempty]

/-- Witness for C6 at a payload carrying a null `release_decision` and no
other decision fields. -/
theorem show_decision_empty_payload_exits_witness :
    showDecisionOnPayload (PyVal.dict [("release_decision", PyVal.none)]) false =
      Except.error (CliErr.exitWith 1
        ["[red]✗[/red] Decision is not available yet for this experiment.",
         "[dim]Run with --wait and try again after evaluation completes.[/dim]"]) :=
  show_decision_empty_payload_exits (PyVal.dict [("release_decision", PyVal.none)])
    false (by intro key hkey; fin_cases hkey <;> rfl)

theorem normalizeSplit_error_shape (s : Option String) (e : CliErr)
    (h : normalizeSplit s = Except.error e) :
    e = CliErr.badParameter "--split must be one of: train, dev, test" := by
  cases s with
  | none => exact absurd h (by simp [normalizeSplit])
  | some s =>
    unfold normalizeSplit at h
    dsimp only at h
    by_cases hv : pyLower (pyStrip s) ∈ VALID_GT_SPLITS
    · rw [if_pos hv] at h
      exact absurd h (by simp)
    · rw [if_neg hv] at h
      exact ((Except.error.injEq _ _).mp h).symm

theorem normalizeSplit_supplied_truthy (s : String) (v : Option String)
    (h : normalizeSplit (some s) = Except.ok v) : pyTruthyStr v = true := by
  unfold normalizeSplit at h
  dsimp only at h
  by_cases hv : pyLower (pyStrip s) ∈ VALID_GT_SPLITS
  · rw [if_pos hv] at h
    have hveq : v = some (pyLower (pyStrip s)) := ((Except.ok.injEq _ _).mp h).symm
    subst hveq
    have hne : pyLower (pyStrip s) ≠ "" := by
      simp only [VALID_GT_SPLITS, List.mem_cons, List.not_mem_nil, or_false] at hv
      rcases hv with h1 | h1 | h1 <;> rw [h1] <;> decide
    simpa [pyTruthyStr] using hne
  · rw [if_neg hv] at h
    exact absurd h (by simp)

theorem gtOptionsUsed_of_any (split labelColumn rowFilter : Option String)
    (seed : Int) (explicit : Bool)
    (h : pyTruthyStr split = true ∨ pyTruthyStr labelColumn = true ∨
         pyTruthyStr rowFilter = true ∨ explicit = true) :
    gtOptionsUsed split labelColumn rowFilter seed explicit = true := by
  unfold gtOptionsUsed
  rcases h with h | h | h | h <;> simp [h]

/-- C2 as stated is false at a concrete input: `push --usage context
--label-column ""` supplies a ground-truth-only option, yet validation
passes with no parameter error (the code tests the Python truthiness of the
option value, and an empty string is falsy), and the flow proceeds towards the
network calls. -/
theorem push_context_gt_option_counterexample :
    pushPrepare ⟨"context", Option.none, some "", Option.none, 42, false, false,
        Option.none, Option.none, Option.none, ".csv"⟩ =
      Except.ok (Option.none, ⟨"DATASET", "structured", "auto"⟩) ∧
    isBadParameterResult (pushPrepare ⟨"context", Option.none, some "", Option.none,
        42, false, false, Option.none, Option.none, Option.none, ".csv"⟩) = false := by
  constructor
  · decide
  · decide

/-- C2 amended: for `push` with usage mode `context` and for `bind` with a
role that does not normalize to "validation", supplying `--split` (any value),
a non-empty `--label-column` or `--row-filter`, or an explicitly-passed
`--sampling-seed` (even when it equals the default 42) raises a parameter
error in the pre-network validation phase; an empty-string `--label-column` or
`--row-filter` value is treated as absent. -/
theorem gt_options_require_validation_amended :
    (∀ a : PushArgs, pyLower (pyStrip a.usage) = USAGE_CONTEXT →
      (a.split ≠ Option.none ∨ pyTruthyStr a.labelColumn = true ∨
       pyTruthyStr a.rowFilter = true ∨ a.samplingSeedExplicit = true) →
      isBadParameterResult (pushPrepare a) = true) ∧
    (∀ (role split labelColumn rowFilter : Option String) (seed : Int)
        (explicit : Bool),
      normalizeRole role ≠ some "validation" →
      (split ≠ Option.none ∨ pyTruthyStr labelColumn = true ∨
       pyTruthyStr rowFilter = true ∨ explicit = true) →
      isBadParameterResult
        (bindPrepare role split labelColumn rowFilter seed explicit) = true) := by
  constructor
  · intro a hu hopt
    have hnu : normalizeUsage a.usage = Except.ok USAGE_CONTEXT := by
      unfold normalizeUsage
      rw [hu]
      simp
    unfold pushPrepare
    rw [hnu]
    dsimp only
    cases hsplit : normalizeSplit a.split with
    | error e =>
      rw [normalizeSplit_error_shape a.split e hsplit]
      rfl
    | ok splitValue =>
      dsimp only
      have hgt : gtOptionsUsed splitValue a.labelColumn a.rowFilter a.samplingSeed
          a.samplingSeedExplicit = true := by
        apply gtOptionsUsed_of_any
        rcases hopt with h | h | h | h
        · left
          cases hs : a.split with
          | none => exact absurd hs h
          | some s =>
            rw [hs] at hsplit
            exact normalizeSplit_supplied_truthy s splitValue hsplit
        · exact Or.inr (Or.inl h)
        · exact Or.inr (Or.inr (Or.inl h))
        · exact Or.inr (Or.inr (Or.inr h))
      rw [if_pos ⟨rfl, hgt⟩]
      rfl
  · intro role split labelColumn rowFilter seed explicit hrole hopt
    unfold bindPrepare
    dsimp only
    cases hsplit : normalizeSplit split with
    | error e =>
      rw [normalizeSplit_error_shape split e hsplit]
      rfl
    | ok splitValue =>
      dsimp only
      have hgt : gtOptionsUsed splitValue labelColumn rowFilter seed explicit = true := by
        apply gtOptionsUsed_of_any
        rcases hopt with h | h | h | h
        · left
          cases hs : split with
          | none => exact absurd hs h
          | some s =>
            rw [hs] at hsplit
            exact normalizeSplit_supplied_truthy s splitValue hsplit
        · exact Or.inr (Or.inl h)
        · exact Or.inr (Or.inr (Or.inl h))
        · exact Or.inr (Or.inr (Or.inr h))
      rw [if_pos ⟨hgt, hrole⟩]
      rfl

/-- Witness for the amended C2: a context push with a non-empty label column,
and a bind with role "input" and an explicitly-passed default seed, both end
in a parameter error. -/
theorem gt_options_require_validation_amended_witness :
    isBadParameterResult (pushPrepare ⟨"context", Option.none, some "answer",
      Option.none, 42, false, false, Option.none, Option.none, Option.none,
      ".csv"⟩) = true ∧
    isBadParameterResult (bindPrepare (some "input") Option.none Option.none
      Option.none 42 true) = true :=
  ⟨gt_options_require_validation_amended.1
     ⟨"context", Option.none, some "answer", Option.none, 42, false, false,
      Option.none, Option.none, Option.none, ".csv"⟩
     (by decide) (Or.inr (Or.inl (by decide))),
   gt_options_require_validation_amended.2 (some "input") Option.none Option.none
     Option.none 42 true (by decide) (Or.inr (Or.inr (Or.inr rfl)))⟩


theorem normalizeGateReasonLoop_eq_dedupLoop (tokens : List String) :
    ∀ seen : List String,
    normalizeGateReasonLoop seen tokens =
      dedupLoop seen ((tokens.map cleanToken).filter (fun t => t ≠ "")) := by
  induction tokens with
  | nil => intro seen; rfl
  | cons t rest ih =>
    intro seen
    rw [normalizeGateReasonLoop]
    by_cases hempty : cleanToken t = ""
    · rw [if_neg (by simp [hempty])]
      have hmap : ((t :: rest).map cleanToken).filter (fun s => s ≠ "") =
          (rest.map cleanToken).filter (fun s => s ≠ "") := by
        rw [List.map_cons, List.filter_cons]
        simp [hempty]
      rw [hmap]
      exact ih seen
    · by_cases hseen : cleanToken t ∈ seen
      · rw [if_neg (by simp [hseen])]
        have hmap : ((t :: rest).map cleanToken).filter (fun s => s ≠ "") =
            cleanToken t :: (rest.map cleanToken).filter (fun s => s ≠ "") := by
          rw [List.map_cons, List.filter_cons]
          simp [hempty]
        rw [hmap, dedupLoop, if_pos hseen]
        exact ih seen
      · rw [if_pos ⟨hempty, hseen⟩]
        have hmap : ((t :: rest).map cleanToken).filter (fun s => s ≠ "") =
            cleanToken t :: (rest.map cleanToken).filter (fun s => s ≠ "") := by
          rw [List.map_cons, List.filter_cons]
          simp [hempty]
        rw [hmap, dedupLoop, if_neg hseen]
        rw [ih (cleanToken t :: seen)]

/-- C8 as stated is false at a concrete input: for `reasons = ["foo:2"]` (the
list branch) the code still strips the trailing `:<integer>` suffix and
renders "foo", while the list-branch rendering the claim states (joining the distinct
non-empty tokens unchanged) yields "foo:2". -/
theorem gate_reason_list_branch_counterexample :
    normalizeGateReason [("reasons", PyVal.list [PyVal.str "foo:2"])] = some "foo" ∧
    gateReasonListClaimRender [("reasons", PyVal.list [PyVal.str "foo:2"])] =
      some "foo:2" ∧
    (some "foo" : Option String) ≠ some "foo:2" := by
  refine ⟨by decide, ?_, by decide⟩
  unfold gateReasonListClaimRender
  rw [show pyGet [("reasons", PyVal.list [PyVal.str "foo:2"])] "reasons" =
    PyVal.list [PyVal.str "foo:2"] from rfl]
  dsimp only
  rw [show ((([PyVal.str "foo:2"]).map (fun item => pyStrip (pyStr item))).filter
      (fun t => t ≠ "")) = ["foo:2"] from by decide]
  rw [dedupFirst_cons, List.filter_nil, dedupFirst_nil]
  decide

/-- C8 amended: the rendered gate reason strips a trailing `:<integer>` suffix
from every token in BOTH branches — whether the tokens come from a `reasons`
list or from splitting a single `reason` string on commas and semicolons —
then joins the distinct non-empty results with ", "; in particular
"coverage_below_threshold:2; violated_constraints:1" renders as
"coverage_below_threshold, violated_constraints". -/
theorem gate_reason_strips_counts_in_both_branches :
    (∀ gateResult : List (String × PyVal),
      normalizeGateReason gateResult = gateReasonSpecRender gateResult) ∧
    normalizeGateReason
        [("reason", PyVal.str "coverage_below_threshold:2; violated_constraints:1")] =
      some "coverage_below_threshold, violated_constraints" := by
  constructor
  · intro gr
    unfold normalizeGateReason gateReasonSpecRender
    cases hgt : gateReasonTokens gr with
    | none => rfl
    | some tokens =>
      dsimp only
      have hid : List.filter (fun x => decide (x ∉ ([] : List String)))
          ((tokens.map cleanToken).filter (fun t => t ≠ "")) =
          (tokens.map cleanToken).filter (fun t => t ≠ "") :=
        List.filter_eq_self.mpr (by intro a _; simp)
      rw [normalizeGateReasonLoop_eq_dedupLoop, dedupLoop_eq_dedupFirst, hid]
  · decide

/-- C3 as stated is false at a concrete input: a record whose
`gt_contract_ids` lists the same identifier twice gets
`gt_contract_count = 2`, while the deduplicated count is 1 — the status-row
builder does not deduplicate. -/
theorem gt_status_count_not_deduplicated_counterexample :
    ((buildGtStatusRows
        (PyVal.dict [("gt_contract_ids", PyVal.list [PyVal.str "a", PyVal.str "a"])])
        Option.none).map (fun row => dictGet row "gt_contract_count")) =
      [some (PyVal.int 2)] ∧
    (dedupFirst ["a", "a"]).length = 1 ∧
    (2 : Int) ≠ (1 : Int) := by
  refine ⟨rfl, ?_, by decide⟩
  rw [dedupFirst_cons,
    show (["a"].filter (fun y => y ≠ "a")) = [] from by decide, dedupFirst_nil]
  rfl

/-- C3 amended: the row field `gt_contract_count` is the plain, non-deduplicated
number of identifiers gathered from the record field `gt_contract_ids` when
that is a list (else from `gt_contracts`); it never exceeds and coincides with
the deduplicated count exactly when the gathered identifiers are already
distinct — so a record listing the same contract identifier twice contributes
a count of 2. -/
theorem gt_status_count_is_plain_length (item : List (String × PyVal))
    (fallback : Option String) :
    dictGet (gtStatusRow item fallback) "gt_contract_count" =
      some (PyVal.int (gtRowContractIds item).length) ∧
    dictGet (gtStatusRow item fallback) "gt_contract_ids" =
      some (PyVal.list ((gtRowContractIds item).map PyVal.str)) ∧
    (dedupFirst (gtRowContractIds item)).length ≤ (gtRowContractIds item).length ∧
    ((dedupFirst (gtRowContractIds item)).length = (gtRowContractIds item).length ↔
      (gtRowContractIds item).Nodup) :=
  ⟨rfl, rfl, dedupFirst_length_le _, dedupFirst_length_eq_iff _⟩

theorem spinnerUpdate_fst (st : SpinnerState) (text : String) :
    (spinnerUpdate st text).1 =
      if some text ≠ st.lastPrinted then ["  " ++ text] else [] := by
  unfold spinnerUpdate
  by_cases h : some text ≠ st.lastPrinted
  · rw [if_pos h, if_pos h]
  · rw [if_neg h, if_neg h]

theorem spinnerUpdate_snd_lastPrinted (st : SpinnerState) (text : String) :
    (spinnerUpdate st text).2.lastPrinted = some text := by
  unfold spinnerUpdate
  by_cases h : some text ≠ st.lastPrinted
  · rw [if_pos h]
  · rw [if_neg h]
    push_neg at h
    exact h.symm

theorem pollStep_observed_job_spec (st : LoopState) (obs : PollObs) (j : JobView)
    (hj : obs.job = some j)
    (hnw : ¬ (jobStatusStr j = "queued" ∧ st.warned = false ∧
      obs.backlogSignal = true)) :
    (pollStep st obs).printed =
      (if some (statusLine j) ≠ st.spinner.lastPrinted
        then ["  " ++ statusLine j] else []) ∧
    (pollStep st obs).next.spinner.lastPrinted = some (statusLine j) := by
  unfold pollStep
  rw [hj]
  dsimp only
  rcases hsp : spinnerUpdate st.spinner (statusLine j) with ⟨out, sp⟩
  have hout : out = if some (statusLine j) ≠ st.spinner.lastPrinted
      then ["  " ++ statusLine j] else [] := by
    rw [← spinnerUpdate_fst st.spinner (statusLine j), hsp]
  have hlast : sp.lastPrinted = some (statusLine j) := by
    rw [← spinnerUpdate_snd_lastPrinted st.spinner (statusLine j), hsp]
  by_cases hterm : jobStatusStr j ∈ terminalStatuses
  · rw [if_pos hterm]
    exact ⟨hout, hlast⟩
  · rw [if_neg hterm, if_neg hnw]
    exact ⟨hout, hlast⟩

/-- C4 as stated is false at a concrete input: two consecutive polls both
observe status "running", yet both re-render, because the progress counters
(3/10 then 4/10) change the rendered status line. -/
theorem poll_rerender_same_status_counterexample :
    jobStatusStr ⟨some "running", some 10, some 3, Option.none⟩ =
      jobStatusStr ⟨some "running", some 10, some 4, Option.none⟩ ∧
    (pollStep initialLoopState
      ⟨some ⟨some "running", some 10, some 3, Option.none⟩, false⟩).printed ≠ [] ∧
    (pollStep
      (pollStep initialLoopState
        ⟨some ⟨some "running", some 10, some 3, Option.none⟩, false⟩).next
      ⟨some ⟨some "running", some 10, some 4, Option.none⟩, false⟩).printed ≠ [] := by
  refine ⟨by decide, by decide, by decide⟩

/-- C4 amended: the poll loop hands the spinner the full rendered status line
(status plus progress counters) on every poll, and the non-interactive spinner
prints only when that line differs from the last printed text; consequently,
consecutive polls whose rendered status lines are equal (with no backlog
warning firing in between) produce no second print — but a change in the
progress counters alone does re-render, even when the status is unchanged. -/
theorem poll_rerender_only_on_line_change :
    (∀ (st : LoopState) (obs : PollObs) (j : JobView), obs.job = some j →
      ¬ (jobStatusStr j = "queued" ∧ st.warned = false ∧
        obs.backlogSignal = true) →
      (pollStep st obs).printed =
        (if some (statusLine j) ≠ st.spinner.lastPrinted
          then ["  " ++ statusLine j] else [])) ∧
    (∀ (st : LoopState) (obs1 obs2 : PollObs) (j1 j2 : JobView),
      obs1.job = some j1 → obs2.job = some j2 →
      ¬ (jobStatusStr j1 = "queued" ∧ st.warned = false ∧
        obs1.backlogSignal = true) →
      ¬ (jobStatusStr j2 = "queued" ∧ (pollStep st obs1).next.warned = false ∧
        obs2.backlogSignal = true) →
      statusLine j1 = statusLine j2 →
      (pollStep (pollStep st obs1).next obs2).printed = []) := by
  constructor
  · intro st obs j hj hnw
    exact (pollStep_observed_job_spec st obs j hj hnw).1
  · intro st obs1 obs2 j1 j2 h1 h2 hnw1 hnw2 hline
    have s1 := pollStep_observed_job_spec st obs1 j1 h1 hnw1
    have s2 := pollStep_observed_job_spec ((pollStep st obs1).next) obs2 j2 h2 hnw2
    rw [s2.1, s1.2, hline]
    simp

/-- Witness for the amended C4: two consecutive polls rendering the identical
line "running (3/10)" — the second prints nothing. -/
theorem poll_rerender_only_on_line_change_witness :
    (pollStep
      (pollStep initialLoopState
        ⟨some ⟨some "running", some 10, some 3, Option.none⟩, false⟩).next
      ⟨some ⟨some "running", some 10, some 3, Option.none⟩, false⟩).printed = [] :=
  poll_rerender_only_on_line_change.2 initialLoopState
    ⟨some ⟨some "running", some 10, some 3, Option.none⟩, false⟩
    ⟨some ⟨some "running", some 10, some 3, Option.none⟩, false⟩
    ⟨some "running", some 10, some 3, Option.none⟩
    ⟨some "running", some 10, some 3, Option.none⟩
    rfl rfl (by decide) (by decide) rfl

theorem fallbackOr_ne_empty (fallback : Option String) : fallbackOr fallback ≠ "" := by
  cases fallback with
  | none => decide
  | some s =>
    simp only [fallbackOr]
    by_cases h : s = ""
    · rw [if_neg (by simp [h])]
      decide
    · rw [if_pos h]
      exact h

theorem gtRowDataId_ne_empty (item : List (String × PyVal))
    (fallback : Option String) : gtRowDataId item fallback ≠ "" := by
  cases hv : pyGet item "data_id" with
  | str s =>
    simp only [gtRowDataId, hv]
    by_cases h : s = ""
    · rw [if_neg (by simp [h])]
      exact fallbackOr_ne_empty fallback
    · rw [if_pos h]
      exact h
  | none => simp only [gtRowDataId, hv]; exact fallbackOr_ne_empty fallback
  | bool b => simp only [gtRowDataId, hv]; exact fallbackOr_ne_empty fallback
  | int n => simp only [gtRowDataId, hv]; exact fallbackOr_ne_empty fallback
  | list xs => simp only [gtRowDataId, hv]; exact fallbackOr_ne_empty fallback
  | dict es => simp only [gtRowDataId, hv]; exact fallbackOr_ne_empty fallback

theorem orDash_ne_empty (p : Option String) : orDash p ≠ "" := by
  cases p with
  | none => decide
  | some s =>
    simp only [orDash]
    by_cases h : s = ""
    · rw [if_neg (by simp [h])]
      decide
    · rw [if_pos h]
      exact h

theorem strEntryId_ne_empty {v : PyVal} {s : String}
    (h : strEntryId v = some s) : s ≠ "" := by
  cases v with
  | str s' =>
    simp only [strEntryId] at h
    by_cases h' : s' = ""
    · rw [if_neg (by simp [h'])] at h
      exact absurd h (by simp)
    · rw [if_pos h'] at h
      have hss : s' = s := (Option.some.injEq _ _).mp h
      rw [← hss]
      exact h'
  | none => exact absurd h (by simp [strEntryId])
  | bool b => exact absurd h (by simp [strEntryId])
  | int n => exact absurd h (by simp [strEntryId])
  | list xs => exact absurd h (by simp [strEntryId])
  | dict es => exact absurd h (by simp [strEntryId])

theorem gtRowContractEntryId_ne_empty {v : PyVal} {s : String}
    (h : gtRowContractEntryId v = some s) : s ≠ "" := by
  cases v with
  | str s' =>
    simp only [gtRowContractEntryId] at h
    by_cases h' : s' = ""
    · rw [if_neg (by simp [h'])] at h
      exact absurd h (by simp)
    · rw [if_pos h'] at h
      have hss : s' = s := (Option.some.injEq _ _).mp h
      rw [← hss]
      exact h'
  | dict d =>
    simp only [gtRowContractEntryId] at h
    cases hid : pyGet d "id" with
    | str s' =>
      simp only [hid] at h
      by_cases h' : s' = ""
      · rw [if_neg (by simp [h'])] at h
        exact absurd h (by simp)
      · rw [if_pos h'] at h
        have hss : s' = s := (Option.some.injEq _ _).mp h
        rw [← hss]
        exact h'
    | none => simp only [hid] at h; exact absurd h (by simp)
    | bool b => simp only [hid] at h; exact absurd h (by simp)
    | int n => simp only [hid] at h; exact absurd h (by simp)
    | list xs => simp only [hid] at h; exact absurd h (by simp)
    | dict es => simp only [hid] at h; exact absurd h (by simp)
  | none => exact absurd h (by simp [gtRowContractEntryId])
  | bool b => exact absurd h (by simp [gtRowContractEntryId])
  | int n => exact absurd h (by simp [gtRowContractEntryId])
  | list xs => exact absurd h (by simp [gtRowContractEntryId])

theorem mem_gtContracts_branch_ne_empty {item : List (String × PyVal)} {s : String}
    (h : s ∈ (match pyGet item "gt_contracts" with
      | PyVal.list contracts => contracts.filterMap gtRowContractEntryId
      | _ => ([] : List String))) : s ≠ "" := by
  revert h
  cases hgc : pyGet item "gt_contracts" with
  | list contracts =>
    intro h
    rcases List.mem_filterMap.mp h with ⟨v, _, hv⟩
    exact gtRowContractEntryId_ne_empty hv
  | str s' => intro h; exact absurd h (List.not_mem_nil s)
  | none => intro h; exact absurd h (List.not_mem_nil s)
  | bool b => intro h; exact absurd h (List.not_mem_nil s)
  | int n => intro h; exact absurd h (List.not_mem_nil s)
  | dict es => intro h; exact absurd h (List.not_mem_nil s)

theorem mem_gtRowContractIds_ne_empty {item : List (String × PyVal)} {s : String}
    (h : s ∈ gtRowContractIds item) : s ≠ "" := by
  unfold gtRowContractIds at h
  revert h
  cases hids : pyGet item "gt_contract_ids" with
  | list ids =>
    intro h
    rcases List.mem_filterMap.mp h with ⟨v, _, hv⟩
    exact strEntryId_ne_empty hv
  | str s' => intro h; exact mem_gtContracts_branch_ne_empty h
  | none => intro h; exact mem_gtContracts_branch_ne_empty h
  | bool b => intro h; exact mem_gtContracts_branch_ne_empty h
  | int n => intro h; exact mem_gtContracts_branch_ne_empty h
  | dict es => intro h; exact mem_gtContracts_branch_ne_empty h

/-- C9: the ground-truth status row builder is total and defensive — every
payload shape (list, dict with `items`, dict with `statuses`, single record
dict, or any other value) yields zero or more well-shaped rows, and a payload
that is neither a list nor a dict yields the empty row list. -/
theorem build_gt_status_rows_total_wellshaped :
    (∀ (payload : PyVal) (fallback : Option String),
      ∀ row ∈ buildGtStatusRows payload fallback, WellShapedRow row) ∧
    (∀ (payload : PyVal) (fallback : Option String),
      isListOrDict payload = false → buildGtStatusRows payload fallback = []) := by
  constructor
  · intro payload fallback row hrow
    unfold buildGtStatusRows at hrow
    rcases List.mem_filterMap.mp hrow with ⟨item, _, hitem⟩
    cases item with
    | dict entries =>
      have hrow' : gtStatusRow entries fallback = row := by
        simpa using hitem
      rw [← hrow']
      refine ⟨rfl, ?_, ?_, ?_⟩
      · exact ⟨gtRowDataId entries fallback, rfl, gtRowDataId_ne_empty _ _⟩
      · exact ⟨orDash (gtRowProfileId entries), rfl, orDash_ne_empty _⟩
      · exact ⟨gtRowContractIds entries, rfl, rfl,
          fun s hs => mem_gtRowContractIds_ne_empty hs⟩
    | none => exact absurd hitem (by simp)
    | bool b => exact absurd hitem (by simp)
    | int n => exact absurd hitem (by simp)
    | str s => exact absurd hitem (by simp)
    | list xs => exact absurd hitem (by simp)
  · intro payload fallback h
    cases payload with
    | list xs => exact absurd h (by simp [isListOrDict])
    | dict es => exact absurd h (by simp [isListOrDict])
    | none => rfl
    | bool b => rfl
    | int n => rfl
    | str s => rfl

/-- Witness for C9: a malformed (string) payload yields no rows, and the row
built from the single-record scenario of the spec is well-shaped. -/
theorem build_gt_status_rows_total_wellshaped_witness :
    buildGtStatusRows (PyVal.str "invalid") Option.none = [] ∧
    WellShapedRow (gtStatusRow [("materialization_status", PyVal.str "pending")]
      (some "single_data")) :=
  ⟨build_gt_status_rows_total_wellshaped.2 (PyVal.str "invalid") Option.none rfl,
   build_gt_status_rows_total_wellshaped.1
     (PyVal.dict [("materialization_status", PyVal.str "pending")])
     (some "single_data")
     (gtStatusRow [("materialization_status", PyVal.str "pending")]
       (some "single_data"))
     (by
       rw [show buildGtStatusRows
           (PyVal.dict [("materialization_status", PyVal.str "pending")])
           (some "single_data") =
         [gtStatusRow [("materialization_status", PyVal.str "pending")]
           (some "single_data")] from rfl]
       exact List.mem_singleton.mpr rfl)⟩

end Fluxloop.Claims
